import Mathlib

/-!
Verification of the certificate-reconciliation core of the sidecar-injector
command (sidecar-injector/cmd/sidecar-injector/main.go).

The embedded code is `patchCertLoop` and `doPatch`:
  * the informer update handler (main.go lines 169-182) that decides whether
    to send a reconciliation trigger on the `shouldPatch` channel;
  * the select loop (main.go lines 187-228) over the retry-timer channel
    `delayedRetryC`, the `shouldPatch` channel and the fsnotify event channel;
  * the startup sequence (main.go lines 130-154): client creation, the single
    initial file read, filesystem-watch setup, and the initial patch attempt.

External effects are passed in explicitly: the outcome of a
`util.PatchMutatingWebhookConfig` call is a boolean environment parameter
(`patchFails`), a file read is an `Option (List Nat)` (`none` = read error),
and time is a `Nat` timestamp in nanoseconds, matching the unit of Go
`time.Second`.  Bytes are `Nat`s; a CA bundle is a `List Nat` and
`bytes.Equal` is list equality.
-/

/-- Go `time.Second` in nanoseconds. -/
def timeSecond : Nat := 1000000000

/-- Embeds `const delayedRetryTime = time.Second` (main.go line 128). -/
def delayedRetryTime : Nat := timeSecond

/-- The `ClientConfig` fragment of a webhook entry: only the `CABundle`
field is read or written by this program. -/
structure WebhookClientConfig where
  caBundle : List Nat
deriving DecidableEq, Repr

/-- One entry of `MutatingWebhookConfiguration.Webhooks`. -/
structure Webhook where
  name : String
  clientConfig : WebhookClientConfig
deriving DecidableEq, Repr

/-- The fields of `v1beta1.MutatingWebhookConfiguration` that the update
handler reads: the resource version and the webhook entry list. -/
structure MutatingWebhookConfiguration where
  resourceVersion : String
  webhooks : List Webhook
deriving DecidableEq, Repr

/-- The `for i, w := range newConfig.Webhooks` scan inside the informer
`UpdateFunc` (main.go lines 174-180): it sends on `shouldPatch` and breaks
at the first entry whose name equals the configured webhook name and whose
CA bundle is not byte-equal to the currently held `caCertPem`.  Returns
whether a send happened. -/
def scanWebhooksEmit (webhookName : String) (caCertPem : List Nat) :
    List Webhook → Bool
  | [] => false
  | w :: rest =>
    if w.name = webhookName ∧ w.clientConfig.caBundle ≠ caCertPem then true
    else scanWebhooksEmit webhookName caCertPem rest

/-- The informer `UpdateFunc` (main.go lines 169-182): a reconciliation
trigger is emitted on `shouldPatch` exactly when the resource version
changed and the webhook scan finds a divergent matching entry. -/
def updateEmits (webhookName : String) (caCertPem : List Nat)
    (oldConfig newConfig : MutatingWebhookConfiguration) : Bool :=
  if oldConfig.resourceVersion ≠ newConfig.resourceVersion then
    scanWebhooksEmit webhookName caCertPem newConfig.webhooks
  else false

/-- `doPatch` (main.go lines 233-240): calls
`util.PatchMutatingWebhookConfig` and returns `retry = true` exactly when
that call returned an error.  The outcome of the cluster call is the
environment parameter `patchFails`. -/
def doPatch (patchFails : Bool) : Bool :=
  patchFails

/-- The mutable state owned by the select loop goroutine (main.go lines
187-228): the held bundle bytes `caCertPem` and the optional retry-timer
channel `delayedRetryC` (`none` embeds a nil channel, `some d` a timer due
at absolute time `d`). -/
structure LoopState where
  caCertPem : List Nat
  delayedRetryC : Option Nat
deriving DecidableEq, Repr

/-- The observable result of handling one select case: the successor state
and the list of bundles passed to `doPatch` during the case, in order. -/
structure StepOut where
  state : LoopState
  patches : List (List Nat)
deriving DecidableEq, Repr

/-- The three cases of the select statement (main.go lines 194-226):
retry-timer expiry, a `shouldPatch` trigger, and an fsnotify event carrying
the result of the `ioutil.ReadFile` performed in that branch. -/
inductive LoopEvent where
  | retryFire : LoopEvent
  | shouldPatchEv : LoopEvent
  | fileEvent : Option (List Nat) → LoopEvent
deriving DecidableEq, Repr

/-- One iteration of the select loop (main.go lines 193-227).
`patchFails` is the outcome of the `util.PatchMutatingWebhookConfig` call
made by `doPatch` in this iteration (unused when no patch is attempted);
`now` is the time at which the case body runs, so `time.After
(delayedRetryTime)` arms a deadline of `now + delayedRetryTime`. -/
def stepLoop (patchFails : Bool) (now : Nat) (s : LoopState) :
    LoopEvent → StepOut
  | .retryFire =>
    if doPatch patchFails then
      { state := { caCertPem := s.caCertPem,
                   delayedRetryC := some (now + delayedRetryTime) },
        patches := [s.caCertPem] }
    else
      { state := { caCertPem := s.caCertPem, delayedRetryC := none },
        patches := [s.caCertPem] }
  | .shouldPatchEv =>
    if doPatch patchFails then
      { state := { caCertPem := s.caCertPem,
                   delayedRetryC :=
                     match s.delayedRetryC with
                     | none => some (now + delayedRetryTime)
                     | some d => some d },
        patches := [s.caCertPem] }
    else
      { state := { caCertPem := s.caCertPem, delayedRetryC := none },
        patches := [s.caCertPem] }
  | .fileEvent readResult =>
    match readResult with
    | some b =>
      if doPatch patchFails then
        { state := { caCertPem := b,
                     delayedRetryC :=
                       match s.delayedRetryC with
                       | none => some (now + delayedRetryTime)
                       | some d => some d },
          patches := [b] }
      else
        { state := { caCertPem := b, delayedRetryC := none },
          patches := [b] }
    | none =>
      { state := s, patches := [] }

/-- The observable result of a successful `patchCertLoop` setup: the
initial loop state handed to the goroutine, the bundles passed to the
initial `util.PatchMutatingWebhookConfig` call, and how many times the CA
bundle file was read during setup. -/
structure StartOut where
  state : LoopState
  patches : List (List Nat)
  readsPerformed : Nat
deriving DecidableEq, Repr

/-- The setup part of `patchCertLoop` (main.go lines 130-191): create the
clientset, read the CA bundle file once, create the fsnotify watcher, watch
the directory, attempt one initial patch, and arm the retry timer inside
the goroutine when that initial attempt failed.  Each fallible external
call is an explicit boolean/option parameter, checked in source order; any
failure before the goroutine starts returns the error and the loop never
runs. -/
def patchCertLoopStart (clientOk : Bool) (readResult : Option (List Nat))
    (newWatcherOk : Bool) (watchOk : Bool) (initialPatchFails : Bool)
    (now : Nat) : Except String StartOut :=
  if !clientOk then .error "CreateClientset failed"
  else
    match readResult with
    | none => .error "ReadFile of caCertFile failed"
    | some caCertPem =>
      if !newWatcherOk then .error "fsnotify NewWatcher failed"
      else if !watchOk then .error "could not watch the cert directory"
      else
        .ok { state := { caCertPem := caCertPem,
                         delayedRetryC :=
                           if initialPatchFails then
                             some (now + delayedRetryTime)
                           else none },
              patches := [caCertPem],
              readsPerformed := 1 }

/-- True exactly when `patchCertLoop` setup returned an error. -/
def startFailed : Except String StartOut → Bool
  | .error _ => true
  | .ok _ => false

/-- Result of one pass through the goroutine body: either the loop
continues with the select-case output, or it exits. -/
inductive StepResult where
  | cont : StepOut → StepResult
  | exitLoop : StepResult
deriving DecidableEq, Repr

set_option linter.unusedVariables false in
/-- One full iteration of the `for { select { ... } }` goroutine (main.go
lines 193-227) in the presence of the shutdown signal: `stopClosed` records
whether `stopCh` has been closed.  The select statement has exactly the
three cases embedded in `stepLoop` and no case on `stopCh`, so the
iteration continues regardless of `stopClosed`. -/
def loopIter (stopClosed : Bool) (patchFails : Bool) (now : Nat)
    (s : LoopState) (e : LoopEvent) : StepResult :=
  StepResult.cont (stepLoop patchFails now s e)

/-- A Go channel, abstracted to its buffer capacity. -/
structure GoChan where
  capacity : Nat
deriving DecidableEq, Repr

/-- The `shouldPatch` channel, `make(chan struct\x7b\x7d)` (main.go line
156): an unbuffered channel, capacity 0. -/
def shouldPatchChan : GoChan := { capacity := 0 }

/-- Go channel send semantics: a send completes without blocking the
sender exactly when a receiver is currently waiting on the channel or the
buffer has a free slot. -/
def chanSendCompletes (c : GoChan) (receiverReady : Bool)
    (buffered : Nat) : Bool :=
  receiverReady || decide (buffered < c.capacity)

/-- The webhook scan emits exactly when some entry matches the configured
name with a divergent CA bundle. -/
theorem scanWebhooksEmit_eq_true_iff (n : String) (held : List Nat)
    (ws : List Webhook) :
    scanWebhooksEmit n held ws = true ↔
      ∃ w, w ∈ ws ∧ w.name = n ∧ w.clientConfig.caBundle ≠ held := by
  induction ws with
  | nil => simp [scanWebhooksEmit]
  | cons w rest ih =>
    by_cases h : w.name = n ∧ w.clientConfig.caBundle ≠ held
    · simp only [scanWebhooksEmit, if_pos h, true_iff]
      exact ⟨w, List.mem_cons_self w rest, h⟩
    · simp only [scanWebhooksEmit, if_neg h, ih]
      constructor
      · rintro ⟨v, hv, hvp⟩
        exact ⟨v, List.mem_cons_of_mem w hv, hvp⟩
      · rintro ⟨v, hv, hvp⟩
        rcases List.mem_cons.mp hv with rfl | hv
        · exact absurd hvp h
        · exact ⟨v, hv, hvp⟩

/-- C1 counterexample: an update event in which only a field unrelated to
the target entry CA bundle changed (here: only the resource version; the
webhook entry list, including the target CA bundle, is identical in the
old and new objects) nevertheless emits a reconciliation request when the
target entry bundle already differs from the held bundle, and that request
does trigger a patch when the loop handles it.  This refutes the claim
that such an event emits no request and triggers no patch. -/
theorem unrelated_change_still_emits :
    (MutatingWebhookConfiguration.mk "1" [⟨"b", ⟨[1]⟩⟩]).webhooks =
      (MutatingWebhookConfiguration.mk "2" [⟨"b", ⟨[1]⟩⟩]).webhooks ∧
    updateEmits "b" [2] (MutatingWebhookConfiguration.mk "1" [⟨"b", ⟨[1]⟩⟩])
      (MutatingWebhookConfiguration.mk "2" [⟨"b", ⟨[1]⟩⟩]) = true ∧
    (stepLoop false 0 { caCertPem := [2], delayedRetryC := none }
      LoopEvent.shouldPatchEv).patches = [[2]] := by
  refine ⟨rfl, by decide, rfl⟩

/-- C1 (amended): the update handler emits a reconciliation request iff
the resource version changed and some webhook entry whose name equals the
target name has a CA bundle not byte-equal to the currently held bundle;
consequently, when every target-named entry carries exactly the held
bundle, an update touching only unrelated fields emits nothing. -/
theorem updateEmits_characterization (n : String) (held : List Nat)
    (oldConfig newConfig : MutatingWebhookConfiguration) :
    (updateEmits n held oldConfig newConfig = true ↔
      (oldConfig.resourceVersion ≠ newConfig.resourceVersion ∧
        ∃ w, w ∈ newConfig.webhooks ∧ w.name = n ∧
          w.clientConfig.caBundle ≠ held)) ∧
    ((∀ w, w ∈ newConfig.webhooks → w.name = n →
        w.clientConfig.caBundle = held) →
      updateEmits n held oldConfig newConfig = false) := by
  constructor
  · unfold updateEmits
    by_cases hrv : oldConfig.resourceVersion ≠ newConfig.resourceVersion
    · simp only [if_pos hrv, scanWebhooksEmit_eq_true_iff]
      exact ⟨fun h => ⟨hrv, h⟩, fun h => h.2⟩
    · simp only [if_neg hrv]
      constructor
      · intro h; exact absurd h (by decide)
      · intro h; exact absurd h.1 hrv
  · intro hconv
    unfold updateEmits
    by_cases hrv : oldConfig.resourceVersion ≠ newConfig.resourceVersion
    · simp only [if_pos hrv]
      rw [← Bool.not_eq_true, scanWebhooksEmit_eq_true_iff]
      rintro ⟨w, hw, hn, hb⟩
      exact hb (hconv w hw hn)
    · simp only [if_neg hrv]

/-- Witness for the amended C1 theorem at a concrete converged input. -/
theorem updateEmits_characterization_witness :
    updateEmits "b" [2] (MutatingWebhookConfiguration.mk "1" [⟨"b", ⟨[2]⟩⟩])
      (MutatingWebhookConfiguration.mk "2" [⟨"b", ⟨[2]⟩⟩]) = false :=
  (updateEmits_characterization "b" [2]
      (MutatingWebhookConfiguration.mk "1" [⟨"b", ⟨[2]⟩⟩])
      (MutatingWebhookConfiguration.mk "2" [⟨"b", ⟨[2]⟩⟩])).2 (by decide)

/-- C2: handling a resource-divergence trigger patches with exactly the
currently held bundle (the branch has no file read), leaves the held
bundle unchanged, disarms the timer on success, and on failure arms the
timer only when none was armed, never replacing an existing deadline. -/
theorem shouldPatch_branch (patchFails : Bool) (now : Nat) (s : LoopState) :
    (stepLoop patchFails now s LoopEvent.shouldPatchEv).patches =
      [s.caCertPem] ∧
    (stepLoop patchFails now s LoopEvent.shouldPatchEv).state.caCertPem =
      s.caCertPem ∧
    (stepLoop patchFails now s LoopEvent.shouldPatchEv).state.delayedRetryC =
      (if patchFails then
        (match s.delayedRetryC with
         | none => some (now + delayedRetryTime)
         | some d => some d)
       else none) := by
  obtain ⟨pem, t⟩ := s
  cases patchFails <;> cases t <;>
    simp [stepLoop, doPatch]

/-- C3: handling a retry-timer expiry patches with the currently held
bundle; success disarms the timer and failure unconditionally re-arms it
for now plus the fixed delay; and no other select case ever replaces an
armed deadline with a different one (they keep it or disarm it). -/
theorem retry_branch (patchFails : Bool) (now : Nat) (s : LoopState) :
    (stepLoop patchFails now s LoopEvent.retryFire).patches =
      [s.caCertPem] ∧
    (stepLoop patchFails now s LoopEvent.retryFire).state.caCertPem =
      s.caCertPem ∧
    (stepLoop patchFails now s LoopEvent.retryFire).state.delayedRetryC =
      (if patchFails then some (now + delayedRetryTime) else none) ∧
    (∀ e d, e ≠ LoopEvent.retryFire → s.delayedRetryC = some d →
      (stepLoop patchFails now s e).state.delayedRetryC = some d ∨
      (stepLoop patchFails now s e).state.delayedRetryC = none) := by
  obtain ⟨pem, t⟩ := s
  refine ⟨?_, ?_, ?_, ?_⟩
  · cases patchFails <;> simp [stepLoop, doPatch]
  · cases patchFails <;> simp [stepLoop, doPatch]
  · cases patchFails <;> simp [stepLoop, doPatch]
  · rintro e d hne rfl
    cases e with
    | retryFire => exact absurd rfl hne
    | shouldPatchEv => cases patchFails <;> simp [stepLoop, doPatch]
    | fileEvent r =>
      cases r <;> cases patchFails <;> simp [stepLoop, doPatch]

/-- Witness for the C3 theorem at a concrete armed state. -/
theorem retry_branch_witness :
    (stepLoop true 5 { caCertPem := [1], delayedRetryC := some 3 }
      LoopEvent.shouldPatchEv).state.delayedRetryC = some 3 ∨
    (stepLoop true 5 { caCertPem := [1], delayedRetryC := some 3 }
      LoopEvent.shouldPatchEv).state.delayedRetryC = none :=
  (retry_branch true 5 { caCertPem := [1], delayedRetryC := some 3 }).2.2.2
    LoopEvent.shouldPatchEv 3 (by decide) rfl

/-- C4: handling a file event whose read succeeded replaces the held
bundle with the newly read bytes and unconditionally attempts a patch with
them (the branch does not consult the cluster resource content), with the
same timer discipline as the divergence branch: success disarms, failure
arms only when no timer was armed. -/
theorem fileEvent_branch (patchFails : Bool) (now : Nat) (s : LoopState)
    (b : List Nat) :
    (stepLoop patchFails now s (LoopEvent.fileEvent (some b))).patches =
      [b] ∧
    (stepLoop patchFails now s
      (LoopEvent.fileEvent (some b))).state.caCertPem = b ∧
    (stepLoop patchFails now s
      (LoopEvent.fileEvent (some b))).state.delayedRetryC =
      (if patchFails then
        (match s.delayedRetryC with
         | none => some (now + delayedRetryTime)
         | some d => some d)
       else none) := by
  obtain ⟨pem, t⟩ := s
  cases patchFails <;> cases t <;>
    simp [stepLoop, doPatch]

/-- C5: successful startup performs exactly one file read and one
immediate patch attempt with the bytes read; when that attempt fails the
retry timer is armed for now plus the fixed delay, which equals one second
(Go time.Second); and no select case ever arms a deadline other than the
fixed now-plus-delay one (no exponential backoff anywhere). -/
theorem startup_behavior (pem : List Nat) (initialPatchFails : Bool)
    (now : Nat) :
    patchCertLoopStart true (some pem) true true initialPatchFails now =
      Except.ok
        { state := { caCertPem := pem,
                     delayedRetryC :=
                       if initialPatchFails then
                         some (now + delayedRetryTime)
                       else none },
          patches := [pem],
          readsPerformed := 1 } ∧
    delayedRetryTime = timeSecond ∧
    (∀ pf2 now2 s e,
      (stepLoop pf2 now2 s e).state.delayedRetryC = s.delayedRetryC ∨
      (stepLoop pf2 now2 s e).state.delayedRetryC = none ∨
      (stepLoop pf2 now2 s e).state.delayedRetryC =
        some (now2 + delayedRetryTime)) := by
  refine ⟨rfl, rfl, ?_⟩
  intro pf2 now2 s e
  obtain ⟨pem2, t⟩ := s
  cases e with
  | retryFire => cases pf2 <;> simp [stepLoop, doPatch]
  | shouldPatchEv => cases pf2 <;> cases t <;> simp [stepLoop, doPatch]
  | fileEvent r =>
    cases r <;> cases pf2 <;> cases t <;> simp [stepLoop, doPatch]

/-- C6: the retry state is one optional deadline, so at most one timer is
armed at any time; whenever a select case attempts a patch and the attempt
fails, the resulting state has an armed timer (a patch error always
schedules a future retry), and the armed deadline is either the one
already pending or now plus the fixed delay (a single timer, never one per
failure). -/
theorem patch_failure_always_arms (patchFails : Bool) (now : Nat)
    (s : LoopState) (e : LoopEvent)
    (hattempt : (stepLoop patchFails now s e).patches ≠ [])
    (hfail : patchFails = true) :
    (stepLoop patchFails now s e).state.delayedRetryC ≠ none ∧
    ((stepLoop patchFails now s e).state.delayedRetryC = s.delayedRetryC ∨
     (stepLoop patchFails now s e).state.delayedRetryC =
       some (now + delayedRetryTime)) := by
  subst hfail
  obtain ⟨pem, t⟩ := s
  cases e with
  | retryFire => simp [stepLoop, doPatch]
  | shouldPatchEv => cases t <;> simp [stepLoop, doPatch]
  | fileEvent r =>
    cases r with
    | none => exact absurd rfl hattempt
    | some b => cases t <;> simp [stepLoop, doPatch]

/-- Witness for the C6 theorem: a failing divergence-triggered patch from
an unarmed state arms the timer. -/
theorem patch_failure_always_arms_witness :
    (stepLoop true 0 { caCertPem := [1], delayedRetryC := none }
      LoopEvent.shouldPatchEv).state.delayedRetryC ≠ none ∧
    ((stepLoop true 0 { caCertPem := [1], delayedRetryC := none }
        LoopEvent.shouldPatchEv).state.delayedRetryC =
      ({ caCertPem := [1], delayedRetryC := none } : LoopState).delayedRetryC ∨
     (stepLoop true 0 { caCertPem := [1], delayedRetryC := none }
        LoopEvent.shouldPatchEv).state.delayedRetryC =
      some (0 + delayedRetryTime)) :=
  patch_failure_always_arms true 0
    { caCertPem := [1], delayedRetryC := none }
    LoopEvent.shouldPatchEv (by decide) rfl

/-- C7: a CA bundle file read failure during setup, a failure to create
the fsnotify watcher, or a failure to watch the directory each make
`patchCertLoop` return the error without starting the loop; whereas a read
failure while handling a steady-state file event leaves the state exactly
as it was and attempts no patch (the event is skipped). -/
theorem startup_fatal_vs_steady_skip :
    (∀ clientOk newWatcherOk watchOk pf now,
      startFailed
        (patchCertLoopStart clientOk none newWatcherOk watchOk pf now) =
        true) ∧
    (∀ clientOk r pf now,
      startFailed (patchCertLoopStart clientOk r false true pf now) =
        true) ∧
    (∀ clientOk r pf now,
      startFailed (patchCertLoopStart clientOk r true false pf now) =
        true) ∧
    (∀ pf now s,
      stepLoop pf now s (LoopEvent.fileEvent none) =
        { state := s, patches := [] }) := by
  refine ⟨?_, ?_, ?_, ?_⟩
  · intro clientOk newWatcherOk watchOk pf now
    cases clientOk <;> simp [patchCertLoopStart, startFailed]
  · intro clientOk r pf now
    cases clientOk <;> cases r <;> simp [patchCertLoopStart, startFailed]
  · intro clientOk r pf now
    cases clientOk <;> cases r <;> simp [patchCertLoopStart, startFailed]
  · intro pf now s
    rfl

/-- C8 counterexample: with the shutdown signal already observed
(stopClosed = true), an iteration of the goroutine still continues with
the ordinary select-case handling instead of reaching a terminal state:
the select statement has no case on the stop channel. -/
theorem loop_ignores_stop_counterexample :
    loopIter true true 0 { caCertPem := [], delayedRetryC := none }
      LoopEvent.shouldPatchEv ≠ StepResult.exitLoop ∧
    loopIter true true 0 { caCertPem := [], delayedRetryC := none }
      LoopEvent.shouldPatchEv =
      StepResult.cont
        (stepLoop true 0 { caCertPem := [], delayedRetryC := none }
          LoopEvent.shouldPatchEv) := by
  exact ⟨by decide, rfl⟩

/-- C8 (amended): the select loop never observes the shutdown signal: an
iteration behaves identically whether or not the signal has fired, and it
never reaches a terminal state — the goroutine exits only when the process
does, while the informer controller is the part that receives the stop
channel. -/
theorem loop_never_observes_stop (stopClosed patchFails : Bool)
    (now : Nat) (s : LoopState) (e : LoopEvent) :
    loopIter stopClosed patchFails now s e ≠ StepResult.exitLoop ∧
    loopIter stopClosed patchFails now s e =
      loopIter (!stopClosed) patchFails now s e := by
  refine ⟨?_, rfl⟩
  intro h
  exact StepResult.noConfusion h

/-- C9: the `shouldPatch` channel is unbuffered, so when the loop is not
currently waiting at its select (no receiver ready), the informer update
handler cannot complete its send: the producer blocks until the loop
consumes. -/
theorem shouldPatch_send_blocks :
    shouldPatchChan.capacity = 0 ∧
    chanSendCompletes shouldPatchChan false 0 = false := by
  decide

/-- C10: a successfully read file event overwrites the held bundle with
the new bytes before patching, so the patch of that very step, every
subsequent retry-timer or divergence-triggered patch from the resulting
state, and every subsequent divergence comparison against the resulting
held bundle all use the newly read bytes — even when the patch of the file
event itself failed. -/
theorem file_update_replaces_held_bundle (patchFails : Bool) (now : Nat)
    (s : LoopState) (b : List Nat) :
    (stepLoop patchFails now s
      (LoopEvent.fileEvent (some b))).state.caCertPem = b ∧
    (stepLoop patchFails now s (LoopEvent.fileEvent (some b))).patches =
      [b] ∧
    (∀ pf2 now2,
      (stepLoop pf2 now2
        (stepLoop patchFails now s
          (LoopEvent.fileEvent (some b))).state
        LoopEvent.retryFire).patches = [b] ∧
      (stepLoop pf2 now2
        (stepLoop patchFails now s
          (LoopEvent.fileEvent (some b))).state
        LoopEvent.shouldPatchEv).patches = [b]) ∧
    (∀ n oldConfig newConfig,
      updateEmits n
        (stepLoop patchFails now s
          (LoopEvent.fileEvent (some b))).state.caCertPem
        oldConfig newConfig =
      updateEmits n b oldConfig newConfig) := by
  obtain ⟨pem, t⟩ := s
  have hstate :
      (stepLoop patchFails now ⟨pem, t⟩
        (LoopEvent.fileEvent (some b))).state.caCertPem = b := by
    cases patchFails <;> cases t <;> simp [stepLoop, doPatch]
  refine ⟨hstate, ?_, ?_, ?_⟩
  · cases patchFails <;> cases t <;> simp [stepLoop, doPatch]
  · intro pf2 now2
    constructor
    · cases patchFails <;> cases t <;> cases pf2 <;>
        simp [stepLoop, doPatch]
    · cases patchFails <;> cases t <;> cases pf2 <;>
        simp [stepLoop, doPatch]
  · intro n oldConfig newConfig
    rw [hstate]
